import Mathlib

/-!
Shallow embedding of `src/cpu/cpu_memory.cpp` (mkl-dnn): the zero-padding
subsystem for blocked memory formats.

Modelling conventions:
* machine integers are `Nat` (all quantities involved are non-negative and far
  from overflow);
* the buffer is a total function `Nat → α` for an element type `α` with a zero
  (`f32`/`s32`/`s16`/`s8`/`u8` all behave identically here: the handlers only
  ever store the zero value of the element type);
* `parallel_nd` loop nests are embedded as the list of addresses written, in
  loop order; every write stores `0`, so the sequential fold over that list is
  the exact semantics of the (synchronous, disjoint) parallel loops;
* `memory_desc_wrapper` is external to the source file.  Its offset functions
  `blk_off` / `off_l` are kept abstract, as per-descriptor fields (`blk_off`
  multiplies each given index by the outer stride of the corresponding
  dimension; nothing in this file depends on a particular stride choice except
  the concrete example descriptors, whose `blkOff`/`offL` are modelled from the
  spec's description of the layout).
-/

namespace mkldnn

/-- The memory formats named in `cpu_memory.cpp`, plus: `blocked` (a generic
blocking descriptor, served by the generic fallback), `nchw` (standing for the
fully dense/plain layouts), `wino_fmt` and `format_undef` (opaque/undefined
layouts), and `nonstd_blocking`.  Modelled from the spec: `nonstd_blocking`
stands for the spec's "blocking-style layout not covered by any handler and not
reducible to the generic path" (section 6), which the entry point must report
as unimplemented. -/
inductive memory_format_t where
  | nCw8c | nCw16c | nChw8c | nChw16c | nCdhw8c | nCdhw16c
  | Oiw16o | Owi16o | Ohwi8o | Oihw16o | Ohwi16o | Oidhw16o | Odhwi16o | Odhwi8o
  | gOiw16o | gOwi16o | gOhwi8o | gOwi8o | Owi8o | gOihw16o | gOhwi16o
  | gOidhw16o | gOdhwi16o | gOdhwi8o
  | oIhw8i | oIhw16i | oIdhw8i | oIdhw16i
  | IOhw16o16i | gIOhw16o16i | IOw16o16i | gIOw16o16i | OIdhw16i16o
  | OIdhw16o16i | OIhw8i8o | OIw8i8o | gOIw8i8o | OIw8o8i | gOIw8o8i
  | OIhw16i16o | OIhw4i16o4i | OIhw8i16o2i | OIdhw8i16o2i | OIhw8o16i2o
  | OIhw8o8i | OIhw16o16i | OIdhw8i8o | OIdhw8o8i | gOIhw8i8o | OIw8o16i2o
  | gOIw8o16i2o | gOIhw16i16o | gOIhw4i16o4i | gOIhw8i16o2i | gOIdhw8i16o2i
  | gOIhw8o16i2o | gOIhw8o8i | gOIhw16o16i | gOIdhw16i16o | gOIdhw16o16i
  | gOIdhw8i8o | gOIdhw8o8i | OIw8i16o2i | gOIw8i16o2i | OIw16i16o | OIw16o16i
  | gOIw16i16o | gOIw16o16i
  | Goihw8g | Goihw16g
  | blocked | nchw | wino_fmt | format_undef | nonstd_blocking
  deriving DecidableEq, Repr

/-- Data types of `mkldnn`: the five supported element types and `undef`
standing for anything outside the supported set. -/
inductive data_type_t where
  | undef | f32 | s32 | s16 | s8 | u8
  deriving DecidableEq, Repr

/-- Status codes returned by `zero_pad`. -/
inductive status_t where
  | success | unimplemented
  deriving DecidableEq, Repr

/-- Embeds `utils::one_of(fmt, ...)`: membership in an explicit list of formats. -/
def one_of (x : memory_format_t) (l : List memory_format_t) : Bool :=
  decide (x ∈ l)

/-- The read-only view of a memory descriptor that `cpu_memory.cpp` consumes.
`dims` are the logical sizes, `pdims` the padded (physical) sizes
(`blocking_desc().padding_dims`).  `blkOff` is `memory_desc_wrapper::blk_off`
applied to an explicit list of indices (each index is multiplied by the outer
stride of the corresponding dimension); `offL` is
`memory_desc_wrapper::off_l(·, true)`, the physical offset of a flattened
padded index.  Both live outside the source file and are therefore kept
abstract, one function per descriptor. -/
structure memory_desc where
  ndims : Nat
  dims : Nat → Nat
  pdims : Nat → Nat
  format : memory_format_t
  dataType : data_type_t
  blkOff : List Nat → Nat
  offL : Nat → Nat

/-- Embeds `utils::array_product(arr + off, len)`: the product
`arr[off] * ... * arr[off+len-1]`. -/
def array_product (f : Nat → Nat) (off len : Nat) : Nat :=
  ((List.range len).map fun i => f (off + i)).prod

/-- Embeds `memory_desc_wrapper::nelems(with_padding)`: total element count over the
logical (`false`) or padded (`true`) dimensions. -/
def nelems (m_d : memory_desc) (with_padding : Bool) : Nat :=
  array_product (if with_padding then m_d.pdims else m_d.dims) 0 m_d.ndims

/-- Modelled from the spec: `memory_desc_wrapper::is_zero` — the descriptor
describes zero elements (section 4.8, step 1). -/
def is_zero (m_d : memory_desc) : Prop :=
  nelems m_d false = 0

instance (m_d : memory_desc) : Decidable (is_zero m_d) := by
  unfold is_zero; infer_instance

/-- Modelled from the spec: `memory_desc_wrapper::is_blocking_desc` — whether
the layout is a blocking-style layout.  Per section 4.8 step 1, fully
dense/plain layouts (represented by `nchw`) and opaque/undefined layouts
(`wino_fmt`, `format_undef`) are not blocking-style and are skipped with
success. -/
def is_blocking_desc (fmt : memory_format_t) : Bool :=
  !(one_of fmt [.nchw, .wino_fmt, .format_undef])

/-- Modelled from the spec: `types::format_normalize` — maps every format that
is recognized as some blocked layout to the tag `blocked`; the remaining tags
(`nonstd_blocking`, `wino_fmt`, `format_undef`) are not any blocking scheme and
are left unchanged. -/
def format_normalize (fmt : memory_format_t) : memory_format_t :=
  if one_of fmt [.nonstd_blocking, .wino_fmt, .format_undef] then fmt
  else .blocked

/-- A buffer: element storage indexed by physical offset. -/
abbrev Mem (α : Type) := Nat → α

/-- The semantics of the zeroing loops: store the zero element at every address
of `L` (in order; order is irrelevant since every write stores `0`). -/
def writeZeros {α : Type} [Zero α] (L : List Nat) (m : Mem α) : Mem α :=
  L.foldl (fun acc a => Function.update acc a 0) m

/-- The index list of a C loop `for (x = lo; x < hi; ++x)`. -/
def loopRange (lo hi : Nat) : List Nat :=
  List.range' lo (hi - lo)

/- ------------------------------------------------------------------ -/
/- 4.2 channel-blocked data formats: `typed_zero_pad_data`            -/
/- ------------------------------------------------------------------ -/

/-- Predicate `is_data_blocked_fmt<fmt>::value`. -/
def is_data_blocked_fmt (fmt : memory_format_t) : Bool :=
  one_of fmt [.nCw8c, .nCw16c, .nChw8c, .nChw16c, .nCdhw8c, .nCdhw16c]

/-- The `blksize` constant of `typed_zero_pad_data`. -/
def data_blksize (fmt : memory_format_t) : Nat :=
  if one_of fmt [.nCw8c, .nChw8c, .nCdhw8c] then 8 else 16

/-- Addresses written by `typed_zero_pad_data`: for every
`(n, sp0)` in `parallel_nd(dims[0], dims[2])`, for `sp < sp_rest`
(`sp_rest = array_product(dims + 3, ndims - 3)`) and
`c` in `[dims[1] % blksize, blksize)`, the address
`blk_off(n, C, sp0) + sp * blksize + c` with `C = pdims[1] / blksize - 1`. -/
def typed_zero_pad_data_addrs (fmt : memory_format_t) (m_d : memory_desc) :
    List Nat :=
  (List.range (m_d.dims 0)).flatMap fun n =>
  (List.range (m_d.dims 2)).flatMap fun sp0 =>
  (List.range (array_product m_d.dims 3 (m_d.ndims - 3))).flatMap fun sp =>
  (loopRange (m_d.dims 1 % data_blksize fmt) (data_blksize fmt)).map fun c =>
    m_d.blkOff [n, m_d.pdims 1 / data_blksize fmt - 1, sp0]
      + sp * data_blksize fmt + c

/-- Handler `typed_zero_pad_data<dt, fmt>` as a buffer transformer. -/
def typed_zero_pad_data {α : Type} [Zero α] (fmt : memory_format_t)
    (m_d : memory_desc) (m : Mem α) : Mem α :=
  writeZeros (typed_zero_pad_data_addrs fmt m_d) m

/- ------------------------------------------------------------------ -/
/- the `wht_blk_off` macro                                            -/
/- ------------------------------------------------------------------ -/

/-- The `wht_blk_off(f, g, o, i, d, h, w)` macro: selects the arity of
`blk_off` from the rank flags and drops the group index when the format has no
group axis (`blk_off<!w_groups>` skips its first argument when `!w_groups`
holds). -/
def wht_blk_off (m_d : memory_desc) (w_groups is_1d is_3d : Bool)
    (g o i d h w : Nat) : Nat :=
  if is_1d then m_d.blkOff (if w_groups then [g, o, i, w] else [o, i, w])
  else if is_3d then
    m_d.blkOff (if w_groups then [g, o, i, d, h, w] else [o, i, d, h, w])
  else m_d.blkOff (if w_groups then [g, o, i, h, w] else [o, i, h, w])

/- ------------------------------------------------------------------ -/
/- 4.3 output-channel-blocked weights                                 -/
/- ------------------------------------------------------------------ -/

/-- Predicate `is_wei_O_blocked_fmt<fmt>::value`. -/
def is_wei_O_blocked_fmt (fmt : memory_format_t) : Bool :=
  one_of fmt
    [.Oiw16o, .Owi16o, .Ohwi8o, .Oihw16o, .Ohwi16o, .Oidhw16o, .Odhwi16o,
     .Odhwi8o, .gOiw16o, .gOwi16o, .gOhwi8o, .gOwi8o, .Owi8o, .gOihw16o,
     .gOhwi16o, .gOidhw16o, .gOdhwi16o, .gOdhwi8o]

/-- Flag `w_groups` of the O-blocked handler. -/
def o_w_groups (fmt : memory_format_t) : Bool :=
  one_of fmt [.gOiw16o, .gOwi16o, .gOhwi8o, .gOwi8o, .gOihw16o, .gOhwi16o,
    .gOidhw16o, .gOdhwi16o, .gOdhwi8o]

/-- Flag `is_1d` of the O-blocked handler. -/
def o_is_1d (fmt : memory_format_t) : Bool :=
  one_of fmt [.Oiw16o, .Owi16o, .gOiw16o, .gOwi16o, .gOwi8o, .Owi8o]

/-- Flag `is_3d` of the O-blocked handler. -/
def o_is_3d (fmt : memory_format_t) : Bool :=
  one_of fmt [.Oidhw16o, .Odhwi16o, .Odhwi8o, .gOidhw16o, .gOdhwi16o,
    .gOdhwi8o]

/-- Constant `blksize` of the O-blocked handler. -/
def o_blksize (fmt : memory_format_t) : Nat :=
  if one_of fmt [.Owi8o, .gOwi8o, .Ohwi8o, .gOhwi8o, .Odhwi8o, .gOdhwi8o]
  then 8 else 16

/-- Addresses written by the O-blocked `typed_zero_pad_weights`: for every
`(g, ic, d, h, w)` in `parallel_nd(G, IC, D, H, W)` and every
`oc` in `[blksize - oc_tail, blksize)`, the address
`wht_blk_off(m_d, g, NB_OC - 1, ic, d, h, w) + oc`. -/
def typed_zero_pad_weights_oblk_addrs (fmt : memory_format_t)
    (m_d : memory_desc) : List Nat :=
  (List.range (if o_w_groups fmt then m_d.dims 0 else 1)).flatMap fun g =>
  (List.range
    (m_d.dims ((if o_w_groups fmt then 1 else 0) + 1))).flatMap fun ic =>
  (List.range (if o_is_3d fmt then
      m_d.dims ((if o_w_groups fmt then 1 else 0) + 2) else 1)).flatMap fun d =>
  (List.range (if o_is_1d fmt then 1 else
      m_d.dims ((if o_w_groups fmt then 1 else 0) + 2
        + (if o_is_3d fmt then 1 else 0)))).flatMap fun h =>
  (List.range (m_d.dims ((if o_w_groups fmt then 1 else 0) + 3
      - (if o_is_1d fmt then 1 else 0)
      + (if o_is_3d fmt then 1 else 0)))).flatMap fun w =>
  (loopRange
      (o_blksize fmt
        - (m_d.pdims (if o_w_groups fmt then 1 else 0)
            - m_d.dims (if o_w_groups fmt then 1 else 0)))
      (o_blksize fmt)).map fun oc =>
    wht_blk_off m_d (o_w_groups fmt) (o_is_1d fmt) (o_is_3d fmt)
      g (m_d.pdims (if o_w_groups fmt then 1 else 0) / o_blksize fmt - 1)
      ic d h w + oc

/-- The O-blocked `typed_zero_pad_weights` as a buffer transformer. -/
def typed_zero_pad_weights_oblk {α : Type} [Zero α] (fmt : memory_format_t)
    (m_d : memory_desc) (m : Mem α) : Mem α :=
  writeZeros (typed_zero_pad_weights_oblk_addrs fmt m_d) m

/- ------------------------------------------------------------------ -/
/- 4.4 input-channel-blocked weights                                  -/
/- ------------------------------------------------------------------ -/

/-- Predicate `is_wei_I_blocked_fmt<fmt>::value`. -/
def is_wei_I_blocked_fmt (fmt : memory_format_t) : Bool :=
  one_of fmt [.oIhw8i, .oIhw16i, .oIdhw8i, .oIdhw16i]

/-- Constant `blksize` of the I-blocked handler. -/
def i_blksize (fmt : memory_format_t) : Nat :=
  if one_of fmt [.oIhw8i, .oIdhw8i] then 8 else 16

/-- Flag `is_3d` of the I-blocked handler. -/
def i_is_3d (fmt : memory_format_t) : Bool :=
  one_of fmt [.oIdhw8i, .oIdhw16i]

/-- Addresses written by the I-blocked `typed_zero_pad_weights`
(`w_groups = 0`, so `blk_off<true>` drops the group index): for every
`(g, oc, d, h, w)` in `parallel_nd(1, OC, D, H, W)` and every
`ic` in `[blksize - ic_tail, blksize)`, the address
`blk_off(oc, NB_IC - 1, [d,] h, w) + ic`. -/
def typed_zero_pad_weights_iblk_addrs (fmt : memory_format_t)
    (m_d : memory_desc) : List Nat :=
  (List.range 1).flatMap fun _g =>
  (List.range (m_d.dims 0)).flatMap fun oc =>
  (List.range (if i_is_3d fmt then m_d.dims 2 else 1)).flatMap fun d =>
  (List.range (m_d.dims (2 + (if i_is_3d fmt then 1 else 0)))).flatMap fun h =>
  (List.range (m_d.dims (3 + (if i_is_3d fmt then 1 else 0)))).flatMap fun w =>
  (loopRange (i_blksize fmt - (m_d.pdims 1 - m_d.dims 1))
      (i_blksize fmt)).map fun ic =>
    (if i_is_3d fmt then
      m_d.blkOff [oc, m_d.pdims 1 / i_blksize fmt - 1, d, h, w]
     else m_d.blkOff [oc, m_d.pdims 1 / i_blksize fmt - 1, h, w]) + ic

/-- The I-blocked `typed_zero_pad_weights` as a buffer transformer. -/
def typed_zero_pad_weights_iblk {α : Type} [Zero α] (fmt : memory_format_t)
    (m_d : memory_desc) (m : Mem α) : Mem α :=
  writeZeros (typed_zero_pad_weights_iblk_addrs fmt m_d) m

/- ------------------------------------------------------------------ -/
/- 4.5 jointly-blocked weights (both input and output tiled)          -/
/- ------------------------------------------------------------------ -/

/-- Predicate `is_wei_IO_blocked_fmt<fmt>::value`. -/
def is_wei_IO_blocked_fmt (fmt : memory_format_t) : Bool :=
  one_of fmt
    [.IOhw16o16i, .gIOhw16o16i, .IOw16o16i, .gIOw16o16i, .OIdhw16i16o,
     .OIdhw16o16i, .OIhw8i8o, .OIw8i8o, .gOIw8i8o, .OIw8o8i, .gOIw8o8i,
     .OIhw16i16o, .OIhw4i16o4i, .OIhw8i16o2i, .OIdhw8i16o2i, .OIhw8o16i2o,
     .OIhw8o8i, .OIhw16o16i, .OIdhw8i8o, .OIdhw8o8i, .gOIhw8i8o, .OIw8o16i2o,
     .gOIw8o16i2o, .gOIhw16i16o, .gOIhw4i16o4i, .gOIhw8i16o2i, .gOIdhw8i16o2i,
     .gOIhw8o16i2o, .gOIhw8o8i, .gOIhw16o16i, .gOIdhw16i16o, .gOIdhw16o16i,
     .gOIdhw8i8o, .gOIdhw8o8i, .OIw8i16o2i, .gOIw8i16o2i, .OIw16i16o,
     .OIw16o16i, .gOIw16i16o, .gOIw16o16i]

/-- Flag `w_groups` of the jointly-blocked handler. -/
def io_w_groups (fmt : memory_format_t) : Bool :=
  one_of fmt [.gOIhw8i8o, .gOIhw16i16o, .gOIhw4i16o4i, .gOIhw8i16o2i,
    .gOIdhw8i16o2i, .gOIhw8o16i2o, .gOIhw8o8i, .gOIhw16o16i, .gIOhw16o16i,
    .gOIdhw16i16o, .gOIdhw16o16i, .gOIdhw8i8o, .gOIdhw8o8i, .gOIw8i16o2i,
    .gOIw8i8o, .gOIw8o8i, .gOIw8o16i2o, .gIOw16o16i]

/-- Flag `is_1d` of the jointly-blocked handler. -/
def io_is_1d (fmt : memory_format_t) : Bool :=
  one_of fmt [.IOw16o16i, .gIOw16o16i, .OIw8i8o, .gOIw8i8o, .OIw8o8i,
    .gOIw8o8i, .OIw8o16i2o, .gOIw8o16i2o, .OIw8i16o2i, .gOIw8i16o2i,
    .OIw16i16o, .OIw16o16i, .gOIw16i16o, .gOIw16o16i]

/-- Flag `is_3d` of the jointly-blocked handler. -/
def io_is_3d (fmt : memory_format_t) : Bool :=
  one_of fmt [.OIdhw16i16o, .OIdhw16o16i, .OIdhw8i16o2i, .OIdhw8i8o,
    .OIdhw8o8i, .gOIdhw8i16o2i, .gOIdhw16i16o, .gOIdhw16o16i, .gOIdhw8i8o,
    .gOIdhw8o8i]

/-- Constant `blksize` of the jointly-blocked handler. -/
def io_blksize (fmt : memory_format_t) : Nat :=
  if one_of fmt [.OIw8o8i, .gOIw8o8i, .OIw8i8o, .gOIw8i8o, .OIhw8o8i,
      .gOIhw8o8i, .OIhw8i8o, .gOIhw8i8o, .OIdhw8o8i, .gOIdhw8o8i, .OIdhw8i8o,
      .gOIdhw8i8o]
  then 8 else 16

/-- Value of `w_groups` as an array-index offset (`w_groups + d`). -/
def io_wg (fmt : memory_format_t) : Nat :=
  if io_w_groups fmt then 1 else 0

/-- Constant `G` of the jointly-blocked handler. -/
def io_G (fmt : memory_format_t) (m_d : memory_desc) : Nat :=
  if io_w_groups fmt then m_d.dims 0 else 1

/-- Constant `NB_OC` of the jointly-blocked handler. -/
def io_NB_OC (fmt : memory_format_t) (m_d : memory_desc) : Nat :=
  m_d.pdims (io_wg fmt + 0) / io_blksize fmt

/-- Constant `NB_IC` of the jointly-blocked handler. -/
def io_NB_IC (fmt : memory_format_t) (m_d : memory_desc) : Nat :=
  m_d.pdims (io_wg fmt + 1) / io_blksize fmt

/-- Constant `D` of the jointly-blocked handler. -/
def io_D (fmt : memory_format_t) (m_d : memory_desc) : Nat :=
  if io_is_3d fmt then m_d.dims (io_wg fmt + 2) else 1

/-- Constant `H` of the jointly-blocked handler. -/
def io_H (fmt : memory_format_t) (m_d : memory_desc) : Nat :=
  if io_is_1d fmt then 1
  else m_d.dims (io_wg fmt + 2 + (if io_is_3d fmt then 1 else 0))

/-- Constant `W` of the jointly-blocked handler. -/
def io_W (fmt : memory_format_t) (m_d : memory_desc) : Nat :=
  m_d.dims (io_wg fmt + 3 - (if io_is_1d fmt then 1 else 0)
    + (if io_is_3d fmt then 1 else 0))

/-- Constant `oc_tail` of the jointly-blocked handler. -/
def io_oc_tail (fmt : memory_format_t) (m_d : memory_desc) : Nat :=
  m_d.pdims (io_wg fmt + 0) - m_d.dims (io_wg fmt + 0)

/-- Constant `ic_tail` of the jointly-blocked handler. -/
def io_ic_tail (fmt : memory_format_t) (m_d : memory_desc) : Nat :=
  m_d.pdims (io_wg fmt + 1) - m_d.dims (io_wg fmt + 1)

/-- The `index` lambda of the jointly-blocked handler: in-tile physical offset
of the pair `(ic, oc)`, selected by format tag. -/
def index (fmt : memory_format_t) (blksize ic oc : Nat) : Nat :=
  if one_of fmt [.OIw8i16o2i, .gOIw8i16o2i, .OIhw8i16o2i, .gOIhw8i16o2i,
      .OIdhw8i16o2i, .gOIdhw8i16o2i] then
    ic / 2 * blksize * 2 + 2 * oc + ic % 2
  else if one_of fmt [.OIhw4i16o4i, .gOIhw4i16o4i] then
    ic / 4 * blksize * 4 + oc * 4 + ic % 4
  else if one_of fmt [.OIhw8o16i2o, .gOIhw8o16i2o, .OIw8o16i2o,
      .gOIw8o16i2o] then
    oc / 2 * blksize * 2 + 2 * ic + oc % 2
  else if one_of fmt [.OIw8i8o, .gOIw8i8o, .OIw16i16o, .gOIw16i16o, .OIhw8i8o,
      .gOIhw8i8o, .OIhw16i16o, .gOIhw16i16o, .OIdhw8i8o, .gOIdhw8i8o,
      .OIdhw16i16o, .gOIdhw16i16o] then
    ic * blksize + oc
  else
    oc * blksize + ic

/-- The `ker` lambda of the jointly-blocked handler: in-tile offsets it zeroes
for the given pair of tails.  First loop: `oc` in `[0, blksize - oc_tail)`
with `ic` in `[blksize - ic_tail, blksize)`; second loop: `oc` in
`[blksize - oc_tail, blksize)` with `ic` in `[0, blksize)`. -/
def ker (fmt : memory_format_t) (blksize oc_tail ic_tail : Nat) : List Nat :=
  ((List.range (blksize - oc_tail)).flatMap fun oc =>
    (loopRange (blksize - ic_tail) blksize).map fun ic =>
      index fmt blksize ic oc)
  ++ ((loopRange (blksize - oc_tail) blksize).flatMap fun oc =>
    (List.range blksize).map fun ic => index fmt blksize ic oc)

/-- Addresses written by the first sweep (`if (ic_tail)`) of the
jointly-blocked handler: for every `(g, nb_oc, d, h, w)`, the base is the last
input tile `wht_blk_off(m_d, g, nb_oc, NB_IC - 1, d, h, w)` and the kernel is
`ker(x, 0, ic_tail)`. -/
def io_sweep_ic (fmt : memory_format_t) (m_d : memory_desc) : List Nat :=
  (List.range (io_G fmt m_d)).flatMap fun g =>
  (List.range (io_NB_OC fmt m_d)).flatMap fun nb_oc =>
  (List.range (io_D fmt m_d)).flatMap fun d =>
  (List.range (io_H fmt m_d)).flatMap fun h =>
  (List.range (io_W fmt m_d)).flatMap fun w =>
  (ker fmt (io_blksize fmt) 0 (io_ic_tail fmt m_d)).map fun off =>
    wht_blk_off m_d (io_w_groups fmt) (io_is_1d fmt) (io_is_3d fmt)
      g nb_oc (io_NB_IC fmt m_d - 1) d h w + off

/-- Addresses written by the second sweep (`if (oc_tail)`) of the
jointly-blocked handler: for every `(g, nb_ic, d, h, w)`, the base is the last
output tile `wht_blk_off(m_d, g, NB_OC - 1, nb_ic, d, h, w)` and the kernel is
`ker(x, oc_tail, 0)`. -/
def io_sweep_oc (fmt : memory_format_t) (m_d : memory_desc) : List Nat :=
  (List.range (io_G fmt m_d)).flatMap fun g =>
  (List.range (io_NB_IC fmt m_d)).flatMap fun nb_ic =>
  (List.range (io_D fmt m_d)).flatMap fun d =>
  (List.range (io_H fmt m_d)).flatMap fun h =>
  (List.range (io_W fmt m_d)).flatMap fun w =>
  (ker fmt (io_blksize fmt) (io_oc_tail fmt m_d) 0).map fun off =>
    wht_blk_off m_d (io_w_groups fmt) (io_is_1d fmt) (io_is_3d fmt)
      g (io_NB_OC fmt m_d - 1) nb_ic d h w + off

/-- Addresses written by the jointly-blocked `typed_zero_pad_weights`: the two
sweeps, each guarded by its own tail being non-zero. -/
def typed_zero_pad_weights_ioblk_addrs (fmt : memory_format_t)
    (m_d : memory_desc) : List Nat :=
  (if io_ic_tail fmt m_d ≠ 0 then io_sweep_ic fmt m_d else [])
  ++ (if io_oc_tail fmt m_d ≠ 0 then io_sweep_oc fmt m_d else [])

/-- The jointly-blocked `typed_zero_pad_weights` as a buffer transformer. -/
def typed_zero_pad_weights_ioblk {α : Type} [Zero α] (fmt : memory_format_t)
    (m_d : memory_desc) (m : Mem α) : Mem α :=
  writeZeros (typed_zero_pad_weights_ioblk_addrs fmt m_d) m

/- ------------------------------------------------------------------ -/
/- 4.6 group-blocked weights                                          -/
/- ------------------------------------------------------------------ -/

/-- Predicate `is_wei_G_blocked_fmt<fmt>::value`. -/
def is_wei_G_blocked_fmt (fmt : memory_format_t) : Bool :=
  one_of fmt [.Goihw8g, .Goihw16g]

/-- Constant `blksize` of the group-blocked handler. -/
def g_blksize (fmt : memory_format_t) : Nat :=
  if fmt = .Goihw8g then 8 else 16

/-- Addresses written by the group-blocked `typed_zero_pad_weights`: base is
`blk_off(G)` with `G = pdims[0] / blksize - 1`; for every
`s` in `[0, array_product(dims + 1, ndims - 1))` and
`g` in `[dims[0] % blksize, blksize)`, the address `base + s * blksize + g`. -/
def typed_zero_pad_weights_gblk_addrs (fmt : memory_format_t)
    (m_d : memory_desc) : List Nat :=
  (List.range (array_product m_d.dims 1 (m_d.ndims - 1))).flatMap fun s =>
  (loopRange (m_d.dims 0 % g_blksize fmt) (g_blksize fmt)).map fun g =>
    m_d.blkOff [m_d.pdims 0 / g_blksize fmt - 1] + s * g_blksize fmt + g

/-- The group-blocked `typed_zero_pad_weights` as a buffer transformer. -/
def typed_zero_pad_weights_gblk {α : Type} [Zero α] (fmt : memory_format_t)
    (m_d : memory_desc) (m : Mem α) : Mem α :=
  writeZeros (typed_zero_pad_weights_gblk_addrs fmt m_d) m

/- ------------------------------------------------------------------ -/
/- 4.7 generic fallback: `typed_zero_pad_generic_blocked`             -/
/- ------------------------------------------------------------------ -/

/-- The `step` computed by `typed_zero_pad_generic_blocked` when invoked with
`n` dimensions: the product of the trailing dimensions (scanned from the
innermost axis outward) whose logical size equals their padded size, stopping
at the first axis with padding. -/
def generic_step (dims pdims : Nat → Nat) : Nat → Nat
  | 0 => 1
  | n + 1 =>
    if dims n = pdims n then dims n * generic_step dims pdims n else 1

/-- The `step_dim` computed by `typed_zero_pad_generic_blocked`: the outermost
axis (scanning from the innermost axis) with padding; `none` mirrors the C
value `-1` (no axis has padding). -/
def generic_step_dim (dims pdims : Nat → Nat) : Nat → Option Nat
  | 0 => none
  | n + 1 =>
    if dims n = pdims n then generic_step_dim dims pdims n else some n

/-- The `need_zero` loop of `typed_zero_pad_generic_blocked`: decodes `idx`
against the padded dimensions from axis `d - 1` down to axis `0` and reports
whether some coordinate is `>=` the logical size of its axis. -/
def generic_need_zero (dims pdims : Nat → Nat) : Nat → Nat → Bool
  | 0, _ => false
  | d + 1, idx =>
    if dims d ≤ idx % pdims d then true
    else generic_need_zero dims pdims d (idx / pdims d)

/-- Addresses written by `typed_zero_pad_generic_blocked`: for every flattened
index `e` in `[0, nelems(true))` (note: every `e`, not only the multiples of
`step`), if the decode of `e / step` needs zeroing, the run
`off_l(e + e0, true)` for `e0` in `[0, step)`. -/
def typed_zero_pad_generic_blocked_addrs (m_d : memory_desc) : List Nat :=
  match generic_step_dim m_d.dims m_d.pdims m_d.ndims with
  | none => []
  | some sd =>
    (List.range (nelems m_d true)).flatMap fun e =>
      if generic_need_zero m_d.dims m_d.pdims (sd + 1)
          (e / generic_step m_d.dims m_d.pdims m_d.ndims) then
        (List.range (generic_step m_d.dims m_d.pdims m_d.ndims)).map fun e0 =>
          m_d.offL (e + e0)
      else []

/-- Handler `typed_zero_pad_generic_blocked<dt>` as a buffer transformer. -/
def typed_zero_pad_generic_blocked {α : Type} [Zero α] (m_d : memory_desc)
    (m : Mem α) : Mem α :=
  writeZeros (typed_zero_pad_generic_blocked_addrs m_d) m

/- ------------------------------------------------------------------ -/
/- 4.8 entry point and data-type dispatch                             -/
/- ------------------------------------------------------------------ -/

/-- Dispatcher `cpu_memory_t::typed_zero_pad<dt>`: early-outs when padded and logical
element counts coincide, then dispatches on the format to the family handler
(the `MAYBE_DATA` / `MAYBE_WEIGHTS` chains test exactly the members of the five
family predicates, which are pairwise disjoint), falling back to the generic
blocked handler when the format normalizes to `blocked`, and reporting
`unimplemented` otherwise. -/
def typed_zero_pad {α : Type} [Zero α] (m_d : memory_desc) (m : Mem α) :
    status_t × Mem α :=
  if nelems m_d false = nelems m_d true then (.success, m)
  else if is_data_blocked_fmt m_d.format then
    (.success, typed_zero_pad_data m_d.format m_d m)
  else if is_wei_O_blocked_fmt m_d.format then
    (.success, typed_zero_pad_weights_oblk m_d.format m_d m)
  else if is_wei_I_blocked_fmt m_d.format then
    (.success, typed_zero_pad_weights_iblk m_d.format m_d m)
  else if is_wei_IO_blocked_fmt m_d.format then
    (.success, typed_zero_pad_weights_ioblk m_d.format m_d m)
  else if is_wei_G_blocked_fmt m_d.format then
    (.success, typed_zero_pad_weights_gblk m_d.format m_d m)
  else if format_normalize m_d.format = .blocked then
    (.success, typed_zero_pad_generic_blocked m_d m)
  else (.unimplemented, m)

/-- The supported data types of the `switch` in `cpu_memory_t::zero_pad`. -/
def supported_types : List data_type_t :=
  [.f32, .s32, .s16, .s8, .u8]

/-- Entry point `cpu_memory_t::zero_pad`: skips (with success) when the buffer is null,
the descriptor is zero, or the layout is not a blocking descriptor; then
dispatches on the data type, reporting `unimplemented` for an unsupported
type. -/
def zero_pad {α : Type} [Zero α] (m_d : memory_desc)
    (data : Option (Mem α)) : status_t × Option (Mem α) :=
  match data with
  | none => (.success, none)
  | some m =>
    if is_zero m_d ∨ ¬ is_blocking_desc m_d.format then (.success, some m)
    else if m_d.dataType ∈ supported_types then
      ((typed_zero_pad m_d m).1, some (typed_zero_pad m_d m).2)
    else (.unimplemented, some m)

/-- The buffer after `zero_pad` (the unchanged buffer when it was null). -/
def zero_pad_mem {α : Type} [Zero α] (m_d : memory_desc) (m : Mem α) :
    Mem α :=
  ((zero_pad m_d (some m)).2).getD m

/- ------------------------------------------------------------------ -/
/- concrete example descriptors                                       -/
/- ------------------------------------------------------------------ -/

/-- Example channel-blocked descriptor, the spec's section 8 scenario: logical
shape `(N=2, C=20, H=4, W=4)` in `nChw16c` (tile size 16), padded channels 32.
Modelled from the spec: the `nChw16c` outer strides are `n ↦ 512`,
`channel-block ↦ 256`, `h ↦ 64` (row-major over `(n, C/16, h, w, c16)`), and
`off_l` is the identity on the padded flat index. -/
def exampleDataDesc : memory_desc where
  ndims := 4
  dims := fun d => [2, 20, 4, 4].getD d 0
  pdims := fun d => [2, 32, 4, 4].getD d 0
  format := .nChw16c
  dataType := .f32
  blkOff := fun l =>
    match l with
    | [n, cb, sp] => n * 512 + cb * 256 + sp * 64
    | _ => 0
  offL := fun e => e

/-- Example jointly-blocked descriptor: `OIw8i8o` (tile size 8, 1D, no
groups), logical shape `(OC=3, IC=5, W=2)`, both axes padded to 8.  The block
offset function is irrelevant to the properties proved about it and is the
constant 0. -/
def exampleIODesc : memory_desc where
  ndims := 3
  dims := fun d => [3, 5, 2].getD d 0
  pdims := fun d => [8, 8, 2].getD d 0
  format := .OIw8i8o
  dataType := .f32
  blkOff := fun _ => 0
  offL := fun e => e

/-- A generic-blocked descriptor exposing the fallback's iteration bug:
`ndims = 3`, logical dims `(2, 3, 2)`, padded dims `(2, 4, 2)` (padding on the
middle axis, one trailing unpadded axis, so `step = 2`).  Modelled from the
spec: `off_l` is the identity on the padded flat index (row-major padded
layout). -/
def genericBugDesc : memory_desc where
  ndims := 3
  dims := fun d => [2, 3, 2].getD d 0
  pdims := fun d => [2, 4, 2].getD d 0
  format := .blocked
  dataType := .f32
  blkOff := fun _ => 0
  offL := fun e => e

/-- A descriptor whose format is a blocking-style layout that no handler
covers and that does not normalize to `blocked` (spec section 6), with equal
padded and logical element counts. -/
def nonstdDesc : memory_desc where
  ndims := 1
  dims := fun _ => 2
  pdims := fun _ => 2
  format := .nonstd_blocking
  dataType := .f32
  blkOff := fun _ => 0
  offL := fun e => e

/-- A descriptor with an unsupported (undefined) data type on an otherwise
ordinary blocking layout. -/
def undefTypeDesc : memory_desc where
  ndims := 4
  dims := fun d => [2, 20, 4, 4].getD d 0
  pdims := fun d => [2, 32, 4, 4].getD d 0
  format := .nChw16c
  dataType := .undef
  blkOff := fun _ => 0
  offL := fun e => e

/- ------------------------------------------------------------------ -/
/- helper lemmas                                                      -/
/- ------------------------------------------------------------------ -/

theorem mem_loopRange {x lo hi : Nat} : x ∈ loopRange lo hi ↔ lo ≤ x ∧ x < hi := by
  unfold loopRange
  rw [List.mem_range'_1]
  omega

theorem writeZeros_apply {α : Type} [Zero α] (L : List Nat) (m : Mem α)
    (x : Nat) : writeZeros L m x = if x ∈ L then 0 else m x := by
  induction L generalizing m with
  | nil => simp [writeZeros]
  | cons a t ih =>
    show writeZeros t (Function.update m a 0) x = _
    rw [ih]
    by_cases hx : x ∈ t
    · simp [hx]
    · by_cases hxa : x = a <;> simp [hx, hxa, Function.update_apply]

theorem writeZeros_idem {α : Type} [Zero α] (L : List Nat) (m : Mem α) :
    writeZeros L (writeZeros L m) = writeZeros L m := by
  funext x
  rw [writeZeros_apply, writeZeros_apply]
  by_cases hx : x ∈ L <;> simp [hx]

theorem array_product_congr {f g : Nat → Nat} {off len : Nat}
    (h : ∀ i, i < len → f (off + i) = g (off + i)) :
    array_product f off len = array_product g off len := by
  unfold array_product
  congr 1
  exact List.map_congr_left fun i hi => h i (List.mem_range.mp hi)

/- ------------------------------------------------------------------ -/
/- C5: the generic fallback's iteration pattern                       -/
/- ------------------------------------------------------------------ -/

/-- C5 (code_bug evidence): the generic fallback on `genericBugDesc` writes at
`off_l(16)`, one past the padded element count 16, because `parallel_nd` runs
over every flattened index `e` (here `e = 15`, not a multiple of `step = 2`)
and each padded `e` zeroes the run `[e, e + step)`.  Under the claimed
iteration — only over the multiples of `step` — every written flat index would
be below `nelems(true)`. -/
theorem typed_zero_pad_generic_blocked_oob :
    genericBugDesc.offL 16 ∈ typed_zero_pad_generic_blocked_addrs genericBugDesc ∧
    nelems genericBugDesc true = 16 ∧
    generic_step genericBugDesc.dims genericBugDesc.pdims genericBugDesc.ndims = 2 := by
  decide

/- ------------------------------------------------------------------ -/
/- C1: the generic fallback alters a logical element                  -/
/- ------------------------------------------------------------------ -/

/-- C1 (code_bug evidence): `zero_pad` on `genericBugDesc` returns success but
zeroes the address `off_l(8)` of the logical element with padded-flat
coordinates `(1, 0, 0)` — all three coordinates are within the logical dims —
although the initial buffer held `1` there. -/
theorem zero_pad_generic_alters_logical :
    (zero_pad genericBugDesc (some (fun _ => (1 : Nat)))).1 = .success ∧
    zero_pad_mem genericBugDesc (fun _ => (1 : Nat)) (genericBugDesc.offL 8) = 0 ∧
    8 / (genericBugDesc.pdims 2 * genericBugDesc.pdims 1) < genericBugDesc.dims 0 ∧
    8 / genericBugDesc.pdims 2 % genericBugDesc.pdims 1 < genericBugDesc.dims 1 ∧
    8 % genericBugDesc.pdims 2 < genericBugDesc.dims 2 := by
  decide

theorem zero_pad_some {α : Type} [Zero α] (m_d : memory_desc) (m : Mem α) :
    zero_pad m_d (some m)
      = if is_zero m_d ∨ ¬ is_blocking_desc m_d.format then (.success, some m)
        else if m_d.dataType ∈ supported_types then
          ((typed_zero_pad m_d m).1, some (typed_zero_pad m_d m).2)
        else (.unimplemented, some m) := rfl

/- ------------------------------------------------------------------ -/
/- C6: the no-op short circuits                                       -/
/- ------------------------------------------------------------------ -/

/-- C6: `zero_pad` returns success and leaves the buffer completely unmodified
whenever the buffer pointer is null, the descriptor describes zero elements,
the layout is not a blocking-style layout, or — within a supported element
type — the padded element count equals the logical element count. -/
theorem zero_pad_noop {α : Type} [Zero α] (m_d : memory_desc)
    (data : Option (Mem α))
    (h : data = none ∨ is_zero m_d ∨ ¬ is_blocking_desc m_d.format
      ∨ (m_d.dataType ∈ supported_types
          ∧ nelems m_d false = nelems m_d true)) :
    zero_pad m_d data = (.success, data) := by
  rcases h with h | h | h | ⟨hdt, hne⟩
  · subst h; rfl
  · cases data with
    | none => rfl
    | some m =>
      rw [zero_pad_some, if_pos (Or.inl h)]
  · cases data with
    | none => rfl
    | some m =>
      rw [zero_pad_some, if_pos (Or.inr h)]
  · cases data with
    | none => rfl
    | some m =>
      have ht : typed_zero_pad m_d m = (.success, m) := by
        unfold typed_zero_pad
        rw [if_pos hne]
      by_cases hg : is_zero m_d ∨ ¬ is_blocking_desc m_d.format
      · rw [zero_pad_some, if_pos hg]
      · rw [zero_pad_some, if_neg hg, if_pos hdt, ht]

/-- C6 witness: `zero_pad` on `nonstdDesc` (supported type, equal padded and
logical element counts) is a success no-op. -/
theorem zero_pad_noop_witness :
    zero_pad nonstdDesc (some (fun _ => (5 : Nat)))
      = (.success, some (fun _ => (5 : Nat))) :=
  zero_pad_noop nonstdDesc (some (fun _ => (5 : Nat)))
    (Or.inr (Or.inr (Or.inr ⟨by decide, by decide⟩)))

/- ------------------------------------------------------------------ -/
/- C7: unsupported data type / unrecognized format                    -/
/- ------------------------------------------------------------------ -/

theorem not_family_of_normalize_ne_blocked
    (fmt : memory_format_t) (h : format_normalize fmt ≠ .blocked) :
    is_data_blocked_fmt fmt = false ∧ is_wei_O_blocked_fmt fmt = false ∧
    is_wei_I_blocked_fmt fmt = false ∧ is_wei_IO_blocked_fmt fmt = false ∧
    is_wei_G_blocked_fmt fmt = false := by
  revert h
  cases fmt <;> decide

/-- C7 counterexample: on `nonstdDesc` — a non-null buffer, a format that is
not recognized as any blocking scheme (`format_normalize ≠ blocked`), but
equal padded and logical element counts — `zero_pad` returns `success`, not
`Unimplemented` (the early no-padding check in `typed_zero_pad` fires before
the format is validated; compare the FIXME comment in the source). -/
theorem zero_pad_unrecognized_format_success :
    (zero_pad nonstdDesc (some (fun _ => (1 : Nat)))).1 = .success ∧
    format_normalize nonstdDesc.format ≠ .blocked ∧
    status_t.success ≠ status_t.unimplemented := by
  decide

/-- C7 (amended): provided the call reaches the dispatch (non-null buffer,
descriptor not zero, blocking-style layout), an unsupported data type yields
`Unimplemented` with the buffer unmodified; and a format that is not
recognized as any blocking scheme yields `Unimplemented` with the buffer
unmodified provided additionally the padded element count differs from the
logical one (otherwise the no-padding check returns success first).  In both
cases the error is returned before any write occurs. -/
theorem zero_pad_unsupported {α : Type} [Zero α] (m_d : memory_desc)
    (m : Mem α) (hz : ¬ is_zero m_d) (hb : is_blocking_desc m_d.format) :
    (m_d.dataType ∉ supported_types →
      zero_pad m_d (some m) = (.unimplemented, some m)) ∧
    (nelems m_d false ≠ nelems m_d true →
      format_normalize m_d.format ≠ .blocked →
      zero_pad m_d (some m) = (.unimplemented, some m)) := by
  have hguard : ¬ (is_zero m_d ∨ ¬ is_blocking_desc m_d.format) := by
    push_neg
    exact ⟨hz, by simpa using hb⟩
  constructor
  · intro hdt
    rw [zero_pad_some, if_neg hguard, if_neg hdt]
  · intro hne hnf
    obtain ⟨h1, h2, h3, h4, h5⟩ := not_family_of_normalize_ne_blocked _ hnf
    have ht : typed_zero_pad m_d m = (.unimplemented, m) := by
      unfold typed_zero_pad
      rw [if_neg hne]
      simp [h1, h2, h3, h4, h5, hnf]
    by_cases hdt : m_d.dataType ∈ supported_types
    · rw [zero_pad_some, if_neg hguard, if_pos hdt, ht]
    · rw [zero_pad_some, if_neg hguard, if_neg hdt]

/-- C7 witness: the amended statement applied to `undefTypeDesc` (unsupported
data type) and to a padded variant of `nonstdDesc` (unrecognized format with
actual padding). -/
theorem zero_pad_unsupported_witness :
    zero_pad undefTypeDesc (some (fun _ => (3 : Nat)))
      = (.unimplemented, some (fun _ => (3 : Nat))) :=
  (zero_pad_unsupported undefTypeDesc (fun _ => (3 : Nat))
    (by decide) (by decide)).1 (by decide)

/- ------------------------------------------------------------------ -/
/- C8: idempotence                                                    -/
/- ------------------------------------------------------------------ -/

theorem typed_zero_pad_snd_idem {α : Type} [Zero α] (m_d : memory_desc)
    (m : Mem α) :
    (typed_zero_pad m_d (typed_zero_pad m_d m).2).2
      = (typed_zero_pad m_d m).2 := by
  unfold typed_zero_pad
  split_ifs <;>
    simp_all [typed_zero_pad_data, typed_zero_pad_weights_oblk,
      typed_zero_pad_weights_iblk, typed_zero_pad_weights_ioblk,
      typed_zero_pad_weights_gblk, typed_zero_pad_generic_blocked,
      writeZeros_idem]

/-- C8: `zero_pad` is idempotent — for every descriptor and initial buffer,
running the operation on its own output buffer yields a buffer identical to
running it once (padding elements are always assigned the zero element and
never read). -/
theorem zero_pad_idempotent {α : Type} [Zero α] (m_d : memory_desc)
    (data : Option (Mem α)) :
    (zero_pad m_d (zero_pad m_d data).2).2 = (zero_pad m_d data).2 := by
  cases data with
  | none => rfl
  | some m =>
    by_cases h1 : is_zero m_d ∨ ¬ is_blocking_desc m_d.format
    · have e : zero_pad m_d (some m) = (.success, some m) := by
        rw [zero_pad_some, if_pos h1]
      simp only [e]
    · by_cases h2 : m_d.dataType ∈ supported_types
      · have e : ∀ m' : Mem α, zero_pad m_d (some m')
            = ((typed_zero_pad m_d m').1, some (typed_zero_pad m_d m').2) := by
          intro m'
          rw [zero_pad_some, if_neg h1, if_pos h2]
        simp only [e]
        rw [typed_zero_pad_snd_idem]
      · have e : ∀ m' : Mem α,
            zero_pad m_d (some m') = (.unimplemented, some m') := by
          intro m'
          rw [zero_pad_some, if_neg h1, if_neg h2]
        simp only [e]

/- ------------------------------------------------------------------ -/
/- C9: the channel-tail assertion cannot fire                         -/
/- ------------------------------------------------------------------ -/

/-- C9: for a channel-blocked descriptor satisfying the descriptor invariants
(every axis other than the channel axis unpadded, padded channels a multiple
of the tile size less than one tile above the logical channels), a difference
between padded and logical element counts forces `dims[1] % blksize ≠ 0`, so
the `assert(c_tail_start != 0)` of `typed_zero_pad_data` never fires when the
handler is reached through the entry point's no-padding short circuit. -/
theorem data_blocked_tail_nonzero (fmt : memory_format_t) (m_d : memory_desc)
    (hfmt : is_data_blocked_fmt fmt)
    (hother : ∀ d, d < m_d.ndims → d ≠ 1 → m_d.pdims d = m_d.dims d)
    (hge : m_d.dims 1 ≤ m_d.pdims 1)
    (hlt : m_d.pdims 1 < m_d.dims 1 + data_blksize fmt)
    (hdvd : data_blksize fmt ∣ m_d.pdims 1)
    (hne : nelems m_d false ≠ nelems m_d true) :
    m_d.dims 1 % data_blksize fmt ≠ 0 := by
  intro h0
  apply hne
  have h1 : m_d.pdims 1 = m_d.dims 1 := by
    have hd2 : data_blksize fmt ∣ (m_d.pdims 1 - m_d.dims 1) :=
      Nat.dvd_sub' hdvd (Nat.dvd_of_mod_eq_zero h0)
    have hz : m_d.pdims 1 - m_d.dims 1 = 0 :=
      Nat.eq_zero_of_dvd_of_lt hd2 (by omega)
    omega
  show array_product m_d.dims 0 m_d.ndims = array_product m_d.pdims 0 m_d.ndims
  apply array_product_congr
  intro i hi
  by_cases hi1 : 0 + i = 1
  · rw [hi1]
    exact h1.symm
  · exact (hother (0 + i) (by omega) hi1).symm

/-- C9 witness: the invariant hypotheses are satisfied by `exampleDataDesc`
(logical channels 20, padded 32, tile 16, padded counts 1024 vs 640), whose
channel tail 20 mod 16 = 4 is indeed non-zero. -/
theorem data_blocked_tail_nonzero_witness :
    exampleDataDesc.dims 1 % data_blksize .nChw16c ≠ 0 :=
  data_blocked_tail_nonzero .nChw16c exampleDataDesc (by decide)
    (by decide) (by decide) (by decide) (by decide) (by decide)

/- ------------------------------------------------------------------ -/
/- C2: the channel-blocked handler                                    -/
/- ------------------------------------------------------------------ -/

theorem mem_typed_zero_pad_data_addrs {fmt : memory_format_t}
    {m_d : memory_desc} {x : Nat} :
    x ∈ typed_zero_pad_data_addrs fmt m_d ↔
      ∃ n, n < m_d.dims 0 ∧ ∃ sp0, sp0 < m_d.dims 2 ∧
      ∃ sp, sp < array_product m_d.dims 3 (m_d.ndims - 3) ∧
      ∃ c, m_d.dims 1 % data_blksize fmt ≤ c ∧ c < data_blksize fmt ∧
        x = m_d.blkOff [n, m_d.pdims 1 / data_blksize fmt - 1, sp0]
          + sp * data_blksize fmt + c := by
  unfold typed_zero_pad_data_addrs
  simp only [List.mem_flatMap, List.mem_map, List.mem_range, mem_loopRange]
  constructor
  · rintro ⟨n, hn, sp0, hsp0, sp, hsp, c, ⟨hc1, hc2⟩, hx⟩
    exact ⟨n, hn, sp0, hsp0, sp, hsp, c, hc1, hc2, hx.symm⟩
  · rintro ⟨n, hn, sp0, hsp0, sp, hsp, c, hc1, hc2, hx⟩
    exact ⟨n, hn, sp0, hsp0, sp, hsp, c, ⟨hc1, hc2⟩, hx.symm⟩

/-- C2: for a channel-blocked format, the handler zeroes, for every
combination of batch index `n` and parallel spatial position `sp0`, the
in-tile channel indices `[dims[1] % blksize, blksize)` of the last channel
tile, for each of the `array_product(dims+3, ndims-3)` contiguous trailing
positions; and — for the spec's concrete example, shape `(2, 20, 4, 4)` in
`nChw16c` — the in-tile indices `0..3` of that tile retain their prior
values. -/
theorem typed_zero_pad_data_spec {α : Type} [Zero α] (fmt : memory_format_t)
    (m_d : memory_desc) (m : Mem α) (hfmt : is_data_blocked_fmt fmt) :
    (∀ n sp0 sp c, n < m_d.dims 0 → sp0 < m_d.dims 2 →
       sp < array_product m_d.dims 3 (m_d.ndims - 3) →
       m_d.dims 1 % data_blksize fmt ≤ c → c < data_blksize fmt →
       typed_zero_pad_data fmt m_d m
         (m_d.blkOff [n, m_d.pdims 1 / data_blksize fmt - 1, sp0]
           + sp * data_blksize fmt + c) = 0) ∧
    (∀ (m' : Mem α) n h w c, n < 2 → h < 4 → w < 4 → c < 4 →
       typed_zero_pad_data .nChw16c exampleDataDesc m'
           (exampleDataDesc.blkOff [n, 1, h] + w * 16 + c)
         = m' (exampleDataDesc.blkOff [n, 1, h] + w * 16 + c)) := by
  constructor
  · intro n sp0 sp c hn hsp0 hsp hc1 hc2
    unfold typed_zero_pad_data
    rw [writeZeros_apply, if_pos]
    exact mem_typed_zero_pad_data_addrs.mpr
      ⟨n, hn, sp0, hsp0, sp, hsp, c, hc1, hc2, rfl⟩
  · intro m' n h w c hn hh hw hc
    unfold typed_zero_pad_data
    rw [writeZeros_apply, if_neg]
    intro hmem
    rw [mem_typed_zero_pad_data_addrs] at hmem
    obtain ⟨n', hn', sp0', hsp0', sp', hsp', c', hc1', hc2', hx⟩ := hmem
    simp [exampleDataDesc, data_blksize, one_of, array_product,
      List.getD] at hn' hsp0' hsp' hc1' hc2' hx
    omega

/-- C2 witness: on the spec's example, the handler zeroes in-tile channel 4 of
the last tile and preserves in-tile channel 0. -/
theorem typed_zero_pad_data_spec_witness :
    typed_zero_pad_data .nChw16c exampleDataDesc (fun _ => (1 : Nat))
        (exampleDataDesc.blkOff [0, 1, 0] + 0 * 16 + 4) = 0 ∧
    typed_zero_pad_data .nChw16c exampleDataDesc (fun _ => (1 : Nat))
        (exampleDataDesc.blkOff [0, 1, 0] + 0 * 16 + 0) = 1 :=
  ⟨(typed_zero_pad_data_spec .nChw16c exampleDataDesc (fun _ => (1 : Nat))
      (by decide)).1 0 0 0 4
      (by decide) (by decide) (by decide) (by decide) (by decide),
   (typed_zero_pad_data_spec .nChw16c exampleDataDesc (fun _ => (1 : Nat))
      (by decide)).2 (fun _ => (1 : Nat)) 0 0 0 0
      (by decide) (by decide) (by decide) (by decide)⟩

/- ------------------------------------------------------------------ -/
/- the five in-tile index formulas: bijectivity helpers               -/
/- ------------------------------------------------------------------ -/

theorem pairwise16_bij :
    (∀ ic, ic < 16 → ∀ oc, oc < 16 →
      ic / 2 * 16 * 2 + 2 * oc + ic % 2 < 16 * 16) ∧
    (∀ ic1, ic1 < 16 → ∀ oc1, oc1 < 16 → ∀ ic2, ic2 < 16 → ∀ oc2, oc2 < 16 →
      ic1 / 2 * 16 * 2 + 2 * oc1 + ic1 % 2
        = ic2 / 2 * 16 * 2 + 2 * oc2 + ic2 % 2 → ic1 = ic2 ∧ oc1 = oc2) ∧
    (∀ k, k < 16 * 16 → ∃ ic, ic < 16 ∧ ∃ oc, oc < 16 ∧
      ic / 2 * 16 * 2 + 2 * oc + ic % 2 = k) := by
  refine ⟨?_, ?_, ?_⟩
  · intro ic h1 oc h2
    omega
  · intro ic1 h1 oc1 h2 ic2 h3 oc2 h4 he
    omega
  · intro k hk
    exact ⟨2 * (k / 32) + k % 2, by omega, k % 32 / 2, by omega, by omega⟩

theorem quad16_bij :
    (∀ ic, ic < 16 → ∀ oc, oc < 16 →
      ic / 4 * 16 * 4 + oc * 4 + ic % 4 < 16 * 16) ∧
    (∀ ic1, ic1 < 16 → ∀ oc1, oc1 < 16 → ∀ ic2, ic2 < 16 → ∀ oc2, oc2 < 16 →
      ic1 / 4 * 16 * 4 + oc1 * 4 + ic1 % 4
        = ic2 / 4 * 16 * 4 + oc2 * 4 + ic2 % 4 → ic1 = ic2 ∧ oc1 = oc2) ∧
    (∀ k, k < 16 * 16 → ∃ ic, ic < 16 ∧ ∃ oc, oc < 16 ∧
      ic / 4 * 16 * 4 + oc * 4 + ic % 4 = k) := by
  refine ⟨?_, ?_, ?_⟩
  · intro ic h1 oc h2
    omega
  · intro ic1 h1 oc1 h2 ic2 h3 oc2 h4 he
    omega
  · intro k hk
    exact ⟨4 * (k / 64) + k % 4, by omega, k % 64 / 4, by omega, by omega⟩

theorem opair16_bij :
    (∀ ic, ic < 16 → ∀ oc, oc < 16 →
      oc / 2 * 16 * 2 + 2 * ic + oc % 2 < 16 * 16) ∧
    (∀ ic1, ic1 < 16 → ∀ oc1, oc1 < 16 → ∀ ic2, ic2 < 16 → ∀ oc2, oc2 < 16 →
      oc1 / 2 * 16 * 2 + 2 * ic1 + oc1 % 2
        = oc2 / 2 * 16 * 2 + 2 * ic2 + oc2 % 2 → ic1 = ic2 ∧ oc1 = oc2) ∧
    (∀ k, k < 16 * 16 → ∃ ic, ic < 16 ∧ ∃ oc, oc < 16 ∧
      oc / 2 * 16 * 2 + 2 * ic + oc % 2 = k) := by
  refine ⟨?_, ?_, ?_⟩
  · intro ic h1 oc h2
    omega
  · intro ic1 h1 oc1 h2 ic2 h3 oc2 h4 he
    omega
  · intro k hk
    exact ⟨k % 32 / 2, by omega, 2 * (k / 32) + k % 2, by omega, by omega⟩

theorem plain_i8_bij :
    (∀ ic, ic < 8 → ∀ oc, oc < 8 → ic * 8 + oc < 8 * 8) ∧
    (∀ ic1, ic1 < 8 → ∀ oc1, oc1 < 8 → ∀ ic2, ic2 < 8 → ∀ oc2, oc2 < 8 →
      ic1 * 8 + oc1 = ic2 * 8 + oc2 → ic1 = ic2 ∧ oc1 = oc2) ∧
    (∀ k, k < 8 * 8 → ∃ ic, ic < 8 ∧ ∃ oc, oc < 8 ∧ ic * 8 + oc = k) := by
  refine ⟨?_, ?_, ?_⟩
  · intro ic h1 oc h2
    omega
  · intro ic1 h1 oc1 h2 ic2 h3 oc2 h4 he
    omega
  · intro k hk
    exact ⟨k / 8, by omega, k % 8, by omega, by omega⟩

theorem plain_i16_bij :
    (∀ ic, ic < 16 → ∀ oc, oc < 16 → ic * 16 + oc < 16 * 16) ∧
    (∀ ic1, ic1 < 16 → ∀ oc1, oc1 < 16 → ∀ ic2, ic2 < 16 → ∀ oc2, oc2 < 16 →
      ic1 * 16 + oc1 = ic2 * 16 + oc2 → ic1 = ic2 ∧ oc1 = oc2) ∧
    (∀ k, k < 16 * 16 → ∃ ic, ic < 16 ∧ ∃ oc, oc < 16 ∧ ic * 16 + oc = k) := by
  refine ⟨?_, ?_, ?_⟩
  · intro ic h1 oc h2
    omega
  · intro ic1 h1 oc1 h2 ic2 h3 oc2 h4 he
    omega
  · intro k hk
    exact ⟨k / 16, by omega, k % 16, by omega, by omega⟩

theorem plain_o8_bij :
    (∀ ic, ic < 8 → ∀ oc, oc < 8 → oc * 8 + ic < 8 * 8) ∧
    (∀ ic1, ic1 < 8 → ∀ oc1, oc1 < 8 → ∀ ic2, ic2 < 8 → ∀ oc2, oc2 < 8 →
      oc1 * 8 + ic1 = oc2 * 8 + ic2 → ic1 = ic2 ∧ oc1 = oc2) ∧
    (∀ k, k < 8 * 8 → ∃ ic, ic < 8 ∧ ∃ oc, oc < 8 ∧ oc * 8 + ic = k) := by
  refine ⟨?_, ?_, ?_⟩
  · intro ic h1 oc h2
    omega
  · intro ic1 h1 oc1 h2 ic2 h3 oc2 h4 he
    omega
  · intro k hk
    exact ⟨k % 8, by omega, k / 8, by omega, by omega⟩

theorem plain_o16_bij :
    (∀ ic, ic < 16 → ∀ oc, oc < 16 → oc * 16 + ic < 16 * 16) ∧
    (∀ ic1, ic1 < 16 → ∀ oc1, oc1 < 16 → ∀ ic2, ic2 < 16 → ∀ oc2, oc2 < 16 →
      oc1 * 16 + ic1 = oc2 * 16 + ic2 → ic1 = ic2 ∧ oc1 = oc2) ∧
    (∀ k, k < 16 * 16 → ∃ ic, ic < 16 ∧ ∃ oc, oc < 16 ∧ oc * 16 + ic = k) := by
  refine ⟨?_, ?_, ?_⟩
  · intro ic h1 oc h2
    omega
  · intro ic1 h1 oc1 h2 ic2 h3 oc2 h4 he
    omega
  · intro k hk
    exact ⟨k % 16, by omega, k / 16, by omega, by omega⟩

/- ------------------------------------------------------------------ -/
/- C4: selection of the in-tile index formula                         -/
/- ------------------------------------------------------------------ -/

/-- C4: for every format of the jointly-blocked family, the in-tile index
function equals exactly the formula of the claim's class: the
input-major-pairwise formula on the `8i16o2i` tags, the quad-interleave
formula on the `4i16o4i` tags, the output-major-pairwise formula on the
`8o16i2o` tags, the input-major plain formula on the `8i8o`/`16i16o` tags, and
the output-major plain formula on all remaining tags of the family. -/
theorem index_selection (fmt : memory_format_t)
    (h : is_wei_IO_blocked_fmt fmt) (ic oc : Nat) :
    (one_of fmt [.OIw8i16o2i, .gOIw8i16o2i, .OIhw8i16o2i, .gOIhw8i16o2i,
        .OIdhw8i16o2i, .gOIdhw8i16o2i] →
      index fmt (io_blksize fmt) ic oc
        = ic / 2 * io_blksize fmt * 2 + 2 * oc + ic % 2) ∧
    (one_of fmt [.OIhw4i16o4i, .gOIhw4i16o4i] →
      index fmt (io_blksize fmt) ic oc
        = ic / 4 * io_blksize fmt * 4 + oc * 4 + ic % 4) ∧
    (one_of fmt [.OIhw8o16i2o, .gOIhw8o16i2o, .OIw8o16i2o, .gOIw8o16i2o] →
      index fmt (io_blksize fmt) ic oc
        = oc / 2 * io_blksize fmt * 2 + 2 * ic + oc % 2) ∧
    (one_of fmt [.OIw8i8o, .gOIw8i8o, .OIw16i16o, .gOIw16i16o, .OIhw8i8o,
        .gOIhw8i8o, .OIhw16i16o, .gOIhw16i16o, .OIdhw8i8o, .gOIdhw8i8o,
        .OIdhw16i16o, .gOIdhw16i16o] →
      index fmt (io_blksize fmt) ic oc = ic * io_blksize fmt + oc) ∧
    (¬ one_of fmt [.OIw8i16o2i, .gOIw8i16o2i, .OIhw8i16o2i, .gOIhw8i16o2i,
        .OIdhw8i16o2i, .gOIdhw8i16o2i, .OIhw4i16o4i, .gOIhw4i16o4i,
        .OIhw8o16i2o, .gOIhw8o16i2o, .OIw8o16i2o, .gOIw8o16i2o, .OIw8i8o,
        .gOIw8i8o, .OIw16i16o, .gOIw16i16o, .OIhw8i8o, .gOIhw8i8o,
        .OIhw16i16o, .gOIhw16i16o, .OIdhw8i8o, .gOIdhw8i8o, .OIdhw16i16o,
        .gOIdhw16i16o] →
      index fmt (io_blksize fmt) ic oc = oc * io_blksize fmt + ic) := by
  cases fmt <;>
    first
      | exact absurd h (by decide)
      | refine ⟨fun hm => ?_, fun hm => ?_, fun hm => ?_, fun hm => ?_,
          fun hm => ?_⟩ <;>
          first
            | rfl
            | exact absurd hm (by decide)

/-- C4 witness: on the quad-interleave tag `OIhw4i16o4i` the selected formula
is the quad-interleave one, evaluated at `(ic, oc) = (5, 7)`. -/
theorem index_selection_witness :
    index .OIhw4i16o4i (io_blksize .OIhw4i16o4i) 5 7
      = 5 / 4 * io_blksize .OIhw4i16o4i * 4 + 7 * 4 + 5 % 4 :=
  (index_selection .OIhw4i16o4i (by decide) 5 7).2.1 (by decide)

/- ------------------------------------------------------------------ -/
/- C10: each index formula is a bijection onto one tile               -/
/- ------------------------------------------------------------------ -/

/-- C10: for every format of the jointly-blocked family, the in-tile index
function with its tile size is a bijection from
`[0, blksize) × [0, blksize)` onto `[0, blksize * blksize)`: every computed
offset stays within one tile, distinct in-tile pairs map to distinct offsets,
and every offset of the tile is reached. -/
theorem index_bijective (fmt : memory_format_t)
    (h : is_wei_IO_blocked_fmt fmt) :
    (∀ ic, ic < io_blksize fmt → ∀ oc, oc < io_blksize fmt →
      index fmt (io_blksize fmt) ic oc < io_blksize fmt * io_blksize fmt) ∧
    (∀ ic1, ic1 < io_blksize fmt → ∀ oc1, oc1 < io_blksize fmt →
      ∀ ic2, ic2 < io_blksize fmt → ∀ oc2, oc2 < io_blksize fmt →
      index fmt (io_blksize fmt) ic1 oc1 = index fmt (io_blksize fmt) ic2 oc2 →
      ic1 = ic2 ∧ oc1 = oc2) ∧
    (∀ k, k < io_blksize fmt * io_blksize fmt →
      ∃ ic, ic < io_blksize fmt ∧ ∃ oc, oc < io_blksize fmt ∧
        index fmt (io_blksize fmt) ic oc = k) := by
  cases fmt <;>
    first
      | exact absurd h (by decide)
      | exact pairwise16_bij
      | exact quad16_bij
      | exact opair16_bij
      | exact plain_i8_bij
      | exact plain_i16_bij
      | exact plain_o8_bij
      | exact plain_o16_bij

/-- C10 witness: the surjectivity conjunct applied on `OIhw8i16o2i` at
offset 37 of the tile. -/
theorem index_bijective_witness :
    ∃ ic, ic < 16 ∧ ∃ oc, oc < 16 ∧ index .OIhw8i16o2i 16 ic oc = 37 :=
  (index_bijective .OIhw8i16o2i (by decide)).2.2 37 (by decide)

/- ------------------------------------------------------------------ -/
/- C3: the two sweeps of the jointly-blocked handler                  -/
/- ------------------------------------------------------------------ -/

theorem index_inj (fmt : memory_format_t) (h : is_wei_IO_blocked_fmt fmt) :
    ∀ ic1, ic1 < io_blksize fmt → ∀ oc1, oc1 < io_blksize fmt →
    ∀ ic2, ic2 < io_blksize fmt → ∀ oc2, oc2 < io_blksize fmt →
    index fmt (io_blksize fmt) ic1 oc1 = index fmt (io_blksize fmt) ic2 oc2 →
    ic1 = ic2 ∧ oc1 = oc2 := by
  cases fmt <;>
    first
      | exact absurd h (by decide)
      | exact pairwise16_bij.2.1
      | exact quad16_bij.2.1
      | exact opair16_bij.2.1
      | exact plain_i8_bij.2.1
      | exact plain_i16_bij.2.1
      | exact plain_o8_bij.2.1
      | exact plain_o16_bij.2.1

theorem mem_ker {fmt : memory_format_t} {bk oct ict x : Nat} :
    x ∈ ker fmt bk oct ict ↔
      ((∃ oc, oc < bk - oct ∧ ∃ ic, bk - ict ≤ ic ∧ ic < bk ∧
          x = index fmt bk ic oc) ∨
       (∃ oc, bk - oct ≤ oc ∧ oc < bk ∧ ∃ ic, ic < bk ∧
          x = index fmt bk ic oc)) := by
  unfold ker
  simp only [List.mem_append, List.mem_flatMap, List.mem_map, List.mem_range,
    mem_loopRange]
  constructor
  · rintro (⟨oc, hoc, ic, ⟨h1, h2⟩, hx⟩ | ⟨oc, ⟨h1, h2⟩, ic, hic, hx⟩)
    · exact Or.inl ⟨oc, hoc, ic, h1, h2, hx.symm⟩
    · exact Or.inr ⟨oc, h1, h2, ic, hic, hx.symm⟩
  · rintro (⟨oc, hoc, ic, h1, h2, hx⟩ | ⟨oc, h1, h2, ic, hic, hx⟩)
    · exact Or.inl ⟨oc, hoc, ic, ⟨h1, h2⟩, hx.symm⟩
    · exact Or.inr ⟨oc, ⟨h1, h2⟩, ic, hic, hx.symm⟩

/-- C3: in the jointly-blocked handler, (i) when the input-axis tail is
non-zero, for every `(g, nb_oc, d, h, w)` the handler zeroes all pairs
`(ic ∈ [blksize - ic_tail, blksize), oc ∈ [0, blksize))` at the last input
tile; (ii) symmetrically, when the output-axis tail is non-zero, all pairs
`(oc ∈ [blksize - oc_tail, blksize), ic ∈ [0, blksize))` at the last output
tile; (iii) when neither tail is non-zero neither sweep runs and the buffer is
untouched; (iv) the in-tile regions of the two sweeps overlap exactly in the
corner `[blksize - ic_tail, blksize) × [blksize - oc_tail, blksize)` — where
both write zero. -/
theorem typed_zero_pad_weights_ioblk_spec {α : Type} [Zero α]
    (fmt : memory_format_t) (m_d : memory_desc)
    (h : is_wei_IO_blocked_fmt fmt) (m : Mem α)
    (hict : io_ic_tail fmt m_d ≤ io_blksize fmt)
    (hoct : io_oc_tail fmt m_d ≤ io_blksize fmt) :
    (io_ic_tail fmt m_d ≠ 0 → ∀ g nb_oc d h' w ic oc,
      g < io_G fmt m_d → nb_oc < io_NB_OC fmt m_d → d < io_D fmt m_d →
      h' < io_H fmt m_d → w < io_W fmt m_d →
      io_blksize fmt - io_ic_tail fmt m_d ≤ ic → ic < io_blksize fmt →
      oc < io_blksize fmt →
      typed_zero_pad_weights_ioblk fmt m_d m
        (wht_blk_off m_d (io_w_groups fmt) (io_is_1d fmt) (io_is_3d fmt)
            g nb_oc (io_NB_IC fmt m_d - 1) d h' w
          + index fmt (io_blksize fmt) ic oc) = 0) ∧
    (io_oc_tail fmt m_d ≠ 0 → ∀ g nb_ic d h' w ic oc,
      g < io_G fmt m_d → nb_ic < io_NB_IC fmt m_d → d < io_D fmt m_d →
      h' < io_H fmt m_d → w < io_W fmt m_d →
      io_blksize fmt - io_oc_tail fmt m_d ≤ oc → oc < io_blksize fmt →
      ic < io_blksize fmt →
      typed_zero_pad_weights_ioblk fmt m_d m
        (wht_blk_off m_d (io_w_groups fmt) (io_is_1d fmt) (io_is_3d fmt)
            g (io_NB_OC fmt m_d - 1) nb_ic d h' w
          + index fmt (io_blksize fmt) ic oc) = 0) ∧
    (io_ic_tail fmt m_d = 0 → io_oc_tail fmt m_d = 0 →
      typed_zero_pad_weights_ioblk fmt m_d m = m) ∧
    (∀ x, (x ∈ ker fmt (io_blksize fmt) 0 (io_ic_tail fmt m_d)
          ∧ x ∈ ker fmt (io_blksize fmt) (io_oc_tail fmt m_d) 0) ↔
      ∃ ic oc,
        (io_blksize fmt - io_ic_tail fmt m_d ≤ ic ∧ ic < io_blksize fmt) ∧
        (io_blksize fmt - io_oc_tail fmt m_d ≤ oc ∧ oc < io_blksize fmt) ∧
        x = index fmt (io_blksize fmt) ic oc) := by
  refine ⟨?_, ?_, ?_, ?_⟩
  · intro ht g nb_oc d h' w ic oc hg hnb hd hh hw hic1 hic2 hoc
    have hmem : wht_blk_off m_d (io_w_groups fmt) (io_is_1d fmt)
          (io_is_3d fmt) g nb_oc (io_NB_IC fmt m_d - 1) d h' w
        + index fmt (io_blksize fmt) ic oc
        ∈ typed_zero_pad_weights_ioblk_addrs fmt m_d := by
      unfold typed_zero_pad_weights_ioblk_addrs
      rw [if_pos ht]
      apply List.mem_append.mpr
      apply Or.inl
      unfold io_sweep_ic
      simp only [List.mem_flatMap, List.mem_range, List.mem_map]
      refine ⟨g, hg, nb_oc, hnb, d, hd, h', hh, w, hw,
        index fmt (io_blksize fmt) ic oc, ?_, rfl⟩
      exact mem_ker.mpr (Or.inl ⟨oc, by omega, ic, hic1, hic2, rfl⟩)
    unfold typed_zero_pad_weights_ioblk
    rw [writeZeros_apply, if_pos hmem]
  · intro ht g nb_ic d h' w ic oc hg hnb hd hh hw hoc1 hoc2 hic
    have hmem : wht_blk_off m_d (io_w_groups fmt) (io_is_1d fmt)
          (io_is_3d fmt) g (io_NB_OC fmt m_d - 1) nb_ic d h' w
        + index fmt (io_blksize fmt) ic oc
        ∈ typed_zero_pad_weights_ioblk_addrs fmt m_d := by
      unfold typed_zero_pad_weights_ioblk_addrs
      rw [if_pos ht]
      apply List.mem_append.mpr
      apply Or.inr
      unfold io_sweep_oc
      simp only [List.mem_flatMap, List.mem_range, List.mem_map]
      refine ⟨g, hg, nb_ic, hnb, d, hd, h', hh, w, hw,
        index fmt (io_blksize fmt) ic oc, ?_, rfl⟩
      exact mem_ker.mpr (Or.inr ⟨oc, hoc1, hoc2, ic, hic, rfl⟩)
    unfold typed_zero_pad_weights_ioblk
    rw [writeZeros_apply, if_pos hmem]
  · intro h1 h2
    unfold typed_zero_pad_weights_ioblk typed_zero_pad_weights_ioblk_addrs
    rw [if_neg (by omega), if_neg (by omega)]
    rfl
  · intro x
    constructor
    · rintro ⟨hx1, hx2⟩
      rw [mem_ker] at hx1 hx2
      rcases hx1 with ⟨oc1, hoc1, ic1, hic1a, hic1b, hx1⟩
        | ⟨oc1, hoc1a, hoc1b, _ic1, _hic1, _hx1⟩
      · rcases hx2 with ⟨_oc2, _hoc2, ic2, hic2a, hic2b, _hx2⟩
          | ⟨oc2, hoc2a, hoc2b, ic2, hic2, hx2⟩
        · exact absurd hic2b (by omega)
        · obtain ⟨hic_eq, hoc_eq⟩ :=
            index_inj fmt h ic1 hic1b oc1 (by omega) ic2 hic2 oc2 hoc2b
              (hx1.symm.trans hx2)
          exact ⟨ic1, oc1, ⟨hic1a, hic1b⟩, ⟨by omega, by omega⟩, hx1⟩
      · exact absurd hoc1b (by omega)
    · rintro ⟨ic, oc, ⟨hic1, hic2⟩, ⟨hoc1, hoc2⟩, hx⟩
      constructor
      · exact mem_ker.mpr (Or.inl ⟨oc, by omega, ic, hic1, hic2, hx⟩)
      · exact mem_ker.mpr (Or.inr ⟨oc, hoc1, hoc2, ic, by omega, hx⟩)

/-- C3 witness: on `exampleIODesc` (`OIw8i8o`, tails `ic_tail = 3`,
`oc_tail = 5`), the first sweep zeroes the cell `(ic, oc) = (5, 0)` of the
last input tile at spatial position `w = 1`. -/
theorem typed_zero_pad_weights_ioblk_spec_witness :
    typed_zero_pad_weights_ioblk .OIw8i8o exampleIODesc (fun _ => (9 : Nat))
        (wht_blk_off exampleIODesc (io_w_groups .OIw8i8o) (io_is_1d .OIw8i8o)
            (io_is_3d .OIw8i8o) 0 0 (io_NB_IC .OIw8i8o exampleIODesc - 1) 0 0 1
          + index .OIw8i8o (io_blksize .OIw8i8o) 5 0) = 0 :=
  (typed_zero_pad_weights_ioblk_spec .OIw8i8o exampleIODesc (by decide)
      (fun _ => (9 : Nat)) (by decide) (by decide)).1 (by decide)
    0 0 0 0 1 5 0 (by decide) (by decide) (by decide) (by decide) (by decide)
    (by decide) (by decide) (by decide)

end mkldnn
